import Mathlib

/-!
Verification of the stream-scribe repository's core logic.

Shallow embedding conventions:
* Python `float` values are modelled as exact rationals (`ℚ`); every float
  appearing in the code is a decimal literal, which we embed as the
  corresponding rational.  All comparisons in the code are order comparisons,
  which agree with the rational order on the values involved.
* Python `int` is modelled as `ℤ` (arbitrary precision), counters that are
  only ever incremented from 0 are still kept as `ℤ` to match Python.
* `str | None` is modelled as `Option String`; Python truthiness of a string
  (`if text:`) is `text ≠ ""`, and of an optional string it is
  "is `some` of a non-empty string".
-/

set_option autoImplicit false

set_option allowUnsafeReducibility true
attribute [semireducible] Rat.mul Rat.inv Rat.add Rat.sub Rat.ofScientific

/-! ### VAD state machine
Embedding of `src/stream_scribe/infrastructure/audio/vad_state_machine.py`
and the `VADDetectionSettings` defaults of `src/stream_scribe/domain/settings.py`. -/

/-- Threshold configuration, from `VADDetectionSettings` in `settings.py`. -/
structure VADDetectionSettings where
  start_threshold : ℚ
  end_threshold : ℚ
  min_speech_chunks : ℤ
  max_silence_chunks : ℤ
  idle_reset_chunks : ℤ
  preroll_sec : ℚ
deriving DecidableEq, Repr

/-- Default values of `VADDetectionSettings` (settings.py):
start 0.5, end 0.3, min speech 3, max silence 25, idle reset 1000, preroll 3.0 s. -/
def defaultVADDetectionSettings : VADDetectionSettings :=
  { start_threshold := 1/2
    end_threshold := 3/10
    min_speech_chunks := 3
    max_silence_chunks := 25
    idle_reset_chunks := 1000
    preroll_sec := 3 }

/-- `VadAction` enum from `vad_state_machine.py`. -/
inductive VadAction where
  | NONE
  | START_RECORDING
  | STOP_RECORDING
  | RESET_VAD_MODEL
deriving DecidableEq, Repr

/-- Mutable state of `VadStateMachine` (`is_recording` and the three counters). -/
structure VadState where
  is_recording : Bool
  speech_chunks : ℤ
  silence_chunks : ℤ
  idle_silence_chunks : ℤ
deriving DecidableEq, Repr

namespace VadStateMachine

/-- State set up by `VadStateMachine.__init__`. -/
def initial : VadState :=
  { is_recording := false, speech_chunks := 0, silence_chunks := 0, idle_silence_chunks := 0 }

/-- `VadStateMachine._evaluate_threshold`: hysteresis between the two thresholds. -/
def evaluate_threshold (s : VADDetectionSettings) (st : VadState) (probability : ℚ) : Bool :=
  if st.is_recording then
    probability ≥ s.end_threshold
  else
    probability ≥ s.start_threshold

/-- `VadStateMachine._reset_recording_state`. -/
def reset_recording_state (st : VadState) : VadState :=
  { st with is_recording := false, silence_chunks := 0, speech_chunks := 0 }

/-- `VadStateMachine._handle_speech`.  Returns the action and the new state. -/
def handle_speech (s : VADDetectionSettings) (st : VadState) : VadAction × VadState :=
  let st := { st with silence_chunks := 0, idle_silence_chunks := 0,
                      speech_chunks := st.speech_chunks + 1 }
  if ¬ st.is_recording ∧ st.speech_chunks ≥ s.min_speech_chunks then
    (VadAction.START_RECORDING, { st with is_recording := true })
  else
    (VadAction.NONE, st)

/-- `VadStateMachine._handle_silence`.  Returns the action and the new state. -/
def handle_silence (s : VADDetectionSettings) (st : VadState) : VadAction × VadState :=
  let st := { st with speech_chunks := 0 }
  if st.is_recording then
    let st := { st with silence_chunks := st.silence_chunks + 1 }
    if st.silence_chunks ≥ s.max_silence_chunks then
      (VadAction.STOP_RECORDING, reset_recording_state st)
    else
      (VadAction.NONE, st)
  else
    let st := { st with idle_silence_chunks := st.idle_silence_chunks + 1 }
    if st.idle_silence_chunks ≥ s.idle_reset_chunks then
      (VadAction.RESET_VAD_MODEL, { st with idle_silence_chunks := 0 })
    else
      (VadAction.NONE, st)

/-- `VadStateMachine.process`. -/
def process (s : VADDetectionSettings) (st : VadState) (probability : ℚ) :
    VadAction × VadState :=
  if evaluate_threshold s st probability then
    handle_speech s st
  else
    handle_silence s st

/-- Runs `process` over a list of probabilities, collecting each returned action
together with the state after that call. -/
def processTrace (s : VADDetectionSettings) (st : VadState) :
    List ℚ → List (VadAction × VadState)
  | [] => []
  | p :: ps =>
    let r := process s st p
    r :: processTrace s r.2 ps

end VadStateMachine

/-- An action is significant when it starts or stops a recording. -/
def isSignificant (a : VadAction) : Bool :=
  a == VadAction.START_RECORDING || a == VadAction.STOP_RECORDING

/-- `alternationFrom b as` holds when the action list `as` strictly alternates
between `START_RECORDING` and `STOP_RECORDING`, the first element being
`STOP_RECORDING` when `b = true` (a recording is open) and `START_RECORDING`
when `b = false`. -/
def alternationFrom : Bool → List VadAction → Bool
  | _, [] => true
  | false, a :: r => a == VadAction.START_RECORDING && alternationFrom true r
  | true, a :: r => a == VadAction.STOP_RECORDING && alternationFrom false r

namespace VadStateMachine

/-- Characterisation of how one `process` call moves the `is_recording` flag:
`START_RECORDING` is emitted only from a non-recording state and switches the
flag on, `STOP_RECORDING` only from a recording state and switches it off, and
every other action leaves the flag unchanged. -/
theorem process_recording_flag (s : VADDetectionSettings) (st : VadState) (p : ℚ) :
    ((process s st p).1 = VadAction.START_RECORDING →
        st.is_recording = false ∧ (process s st p).2.is_recording = true) ∧
    ((process s st p).1 = VadAction.STOP_RECORDING →
        st.is_recording = true ∧ (process s st p).2.is_recording = false) ∧
    ((process s st p).1 ≠ VadAction.START_RECORDING →
      (process s st p).1 ≠ VadAction.STOP_RECORDING →
        (process s st p).2.is_recording = st.is_recording) := by
  simp only [process, handle_speech, handle_silence, reset_recording_state]
  split_ifs <;> simp_all

/-- From any state, the significant actions of a trace alternate according to
the state's `is_recording` flag. -/
theorem alternation_invariant (s : VADDetectionSettings) (ps : List ℚ) :
    ∀ st : VadState,
      alternationFrom st.is_recording
        (((processTrace s st ps).map Prod.fst).filter isSignificant) = true := by
  induction ps with
  | nil => intro st; simp [processTrace, alternationFrom]
  | cons p ps ih =>
    intro st
    obtain ⟨hstart, hstop, hother⟩ := process_recording_flag s st p
    rcases ha : (process s st p).1 with _ | _ | _ | _
    · have hrec := hother (by simp [ha]) (by simp [ha])
      simpa [processTrace, ha, isSignificant, hrec] using (hrec ▸ ih (process s st p).2)
    · obtain ⟨hpre, hpost⟩ := hstart ha
      have := ih (process s st p).2
      rw [hpost] at this
      simp [processTrace, ha, isSignificant, hpre, alternationFrom, this]
    · obtain ⟨hpre, hpost⟩ := hstop ha
      have := ih (process s st p).2
      rw [hpost] at this
      simp [processTrace, ha, isSignificant, hpre, alternationFrom, this]
    · have hrec := hother (by simp [ha]) (by simp [ha])
      simpa [processTrace, ha, isSignificant, hrec] using (hrec ▸ ih (process s st p).2)

end VadStateMachine

/-- C1: For every threshold configuration and every probability sequence, the
significant actions emitted from the initial state strictly alternate between
`START_RECORDING` and `STOP_RECORDING`, starting with `START_RECORDING`; so each
`START_RECORDING` is followed by exactly one `STOP_RECORDING` before any further
`START_RECORDING`. -/
theorem vad_start_stop_alternation (s : VADDetectionSettings) (ps : List ℚ) :
    alternationFrom false
      (((VadStateMachine.processTrace s VadStateMachine.initial ps).map Prod.fst).filter
        isSignificant) = true :=
  VadStateMachine.alternation_invariant s ps VadStateMachine.initial

namespace VadStateMachine

/-- When `process` returns `STOP_RECORDING`, the pre-state was recording and the
post-state is the pre-state with the flag cleared and both the speech and
silence counters reset; `idle_silence_chunks` is carried over unchanged. -/
theorem process_stop_shape (s : VADDetectionSettings) (st : VadState) (p : ℚ)
    (h : (process s st p).1 = VadAction.STOP_RECORDING) :
    st.is_recording = true ∧
      (process s st p).2 =
        { is_recording := false, speech_chunks := 0, silence_chunks := 0,
          idle_silence_chunks := st.idle_silence_chunks } := by
  simp only [process, handle_speech, handle_silence, reset_recording_state] at h ⊢
  split_ifs at h ⊢
  all_goals simp_all

/-- One `process` call preserves the invariant "recording implies the idle
silence counter is zero". -/
theorem process_preserves_idle_inv (s : VADDetectionSettings) (st : VadState) (p : ℚ)
    (h : st.is_recording = true → st.idle_silence_chunks = 0) :
    (process s st p).2.is_recording = true → (process s st p).2.idle_silence_chunks = 0 := by
  simp only [process, handle_speech, handle_silence, reset_recording_state]
  split_ifs <;> simp_all

/-- Auxiliary induction for C10 over arbitrary invariant-satisfying start states. -/
theorem stop_resets_aux (s : VADDetectionSettings) (ps : List ℚ) :
    ∀ st : VadState, (st.is_recording = true → st.idle_silence_chunks = 0) →
      ∀ r ∈ processTrace s st ps, r.1 = VadAction.STOP_RECORDING → r.2 = initial := by
  induction ps with
  | nil => intro st _ r hr; simp [processTrace] at hr
  | cons p ps ih =>
    intro st hinv r hr hstop
    rw [processTrace, List.mem_cons] at hr
    rcases hr with hr | hr
    · subst hr
      obtain ⟨hpre, hpost⟩ := process_stop_shape s st p hstop
      rw [hpost, initial, hinv hpre]
    · exact ih (process s st p).2 (process_preserves_idle_inv s st p hinv) r hr hstop

end VadStateMachine

/-- C10: In any trace from the initial state, whenever `process` returns
`STOP_RECORDING` the post-state is exactly the initial state: `is_recording`
is false and all three counters, including `idle_silence_chunks`, are zero. -/
theorem vad_stop_restores_initial_state (s : VADDetectionSettings) (ps : List ℚ)
    (r : VadAction × VadState)
    (hmem : r ∈ VadStateMachine.processTrace s VadStateMachine.initial ps)
    (hstop : r.1 = VadAction.STOP_RECORDING) : r.2 = VadStateMachine.initial :=
  VadStateMachine.stop_resets_aux s ps VadStateMachine.initial (by intro h; rfl) r hmem hstop

/-- Witness for C10: with default settings, three 0.6 chunks followed by
twenty-five 0.1 chunks end in a `STOP_RECORDING` whose post-state is initial. -/
theorem vad_stop_restores_initial_state_witness :
    (VadAction.STOP_RECORDING, VadStateMachine.initial) ∈
        VadStateMachine.processTrace defaultVADDetectionSettings VadStateMachine.initial
          (List.replicate 3 (6/10) ++ List.replicate 25 (1/10)) ∧
      (VadStateMachine.initial = VadStateMachine.initial) :=
  ⟨by decide,
    vad_stop_restores_initial_state defaultVADDetectionSettings
      (List.replicate 3 (6/10) ++ List.replicate 25 (1/10))
      (VadAction.STOP_RECORDING, VadStateMachine.initial) (by decide) rfl⟩

/-- C8: the threshold comparison is inclusive on both sides — a probability
exactly equal to `start_threshold` counts as speech when not recording, one
exactly equal to `end_threshold` counts as speech when recording — and which
threshold is consulted depends only on the `is_recording` flag. -/
theorem vad_threshold_inclusive_hysteresis (s : VADDetectionSettings)
    (st st' : VadState) (p : ℚ) :
    (st.is_recording = false →
        VadStateMachine.evaluate_threshold s st s.start_threshold = true) ∧
    (st.is_recording = true →
        VadStateMachine.evaluate_threshold s st s.end_threshold = true) ∧
    (st.is_recording = st'.is_recording →
        VadStateMachine.evaluate_threshold s st p =
          VadStateMachine.evaluate_threshold s st' p) := by
  unfold VadStateMachine.evaluate_threshold
  refine ⟨fun h => ?_, fun h => ?_, fun h => ?_⟩ <;> simp [h]

/-- Witness for C8 at the default thresholds. -/
theorem vad_threshold_inclusive_hysteresis_witness :
    (VadStateMachine.evaluate_threshold defaultVADDetectionSettings VadStateMachine.initial
        defaultVADDetectionSettings.start_threshold = true) ∧
    (VadStateMachine.evaluate_threshold defaultVADDetectionSettings
        { is_recording := true, speech_chunks := 4, silence_chunks := 0,
          idle_silence_chunks := 0 }
        defaultVADDetectionSettings.end_threshold = true) ∧
    (VadStateMachine.evaluate_threshold defaultVADDetectionSettings VadStateMachine.initial
        (2/5) =
      VadStateMachine.evaluate_threshold defaultVADDetectionSettings
        { is_recording := false, speech_chunks := 1, silence_chunks := 2,
          idle_silence_chunks := 3 } (2/5)) :=
  ⟨(vad_threshold_inclusive_hysteresis defaultVADDetectionSettings VadStateMachine.initial
      VadStateMachine.initial 0).1 rfl,
    (vad_threshold_inclusive_hysteresis defaultVADDetectionSettings
      { is_recording := true, speech_chunks := 4, silence_chunks := 0,
        idle_silence_chunks := 0 } VadStateMachine.initial 0).2.1 rfl,
    (vad_threshold_inclusive_hysteresis defaultVADDetectionSettings VadStateMachine.initial
      { is_recording := false, speech_chunks := 1, silence_chunks := 2,
        idle_silence_chunks := 3 } (2/5)).2.2 rfl⟩

/-- C2: From the initial state with default settings, probability 0.6 yields
NONE, NONE, START_RECORDING, and then probability 0.1 yields 24 × NONE
followed by STOP_RECORDING on the 25th call. -/
theorem vad_default_start_stop_trigger :
    (VadStateMachine.processTrace defaultVADDetectionSettings VadStateMachine.initial
        (List.replicate 2 (6/10) ++ [6/10] ++ List.replicate 24 (1/10) ++ [1/10])).map
        Prod.fst =
      List.replicate 2 VadAction.NONE ++ [VadAction.START_RECORDING] ++
        List.replicate 24 VadAction.NONE ++ [VadAction.STOP_RECORDING] := by
  decide

/-! ### Constants and the pre-roll buffer capacity
Embedding of `src/stream_scribe/domain/constants.py` (`CHUNK_MS`, `PREROLL_SEC`,
`PREROLL_CHUNKS`), of the `preroll_chunks` method of `VADDetectionSettings`
(settings.py), and of the ring-buffer construction
`deque(maxlen=PREROLL_CHUNKS)` in `audio_stream.py`. -/

/-- Python `int()` conversion of a real value: truncation toward zero. -/
def pyInt (q : ℚ) : ℤ :=
  if 0 ≤ q then ⌊q⌋ else ⌈q⌉

/-- `CHUNK_MS = 32` (constants.py). -/
def CHUNK_MS : ℕ := 32

/-- `PREROLL_SEC = 3.0` (constants.py). -/
def PREROLL_SEC : ℚ := 3

/-- `PREROLL_CHUNKS = int(PREROLL_SEC * 1000 / CHUNK_MS)` (constants.py). -/
def PREROLL_CHUNKS : ℤ := pyInt (PREROLL_SEC * 1000 / (CHUNK_MS : ℚ))

/-- Capacity (in chunks) of `AudioStream.preroll_ring_buffer`, constructed in
`audio_stream.py` as `deque(maxlen=PREROLL_CHUNKS)`. -/
def prerollRingBufferCapacity : ℤ := PREROLL_CHUNKS

/-- `VADDetectionSettings.preroll_chunks(chunk_ms)` method (settings.py):
`int(self.preroll_sec * 1000 / chunk_ms)`. -/
def VADDetectionSettings.preroll_chunks (s : VADDetectionSettings) (chunk_ms : ℕ) : ℤ :=
  pyInt (s.preroll_sec * 1000 / (chunk_ms : ℚ))

/-- Counterexample for C4: the code truncates `3000 / 32 = 93.75` to 93 chunks,
whereas the claimed ceiling would be 94. -/
theorem preroll_capacity_ceiling_counterexample :
    prerollRingBufferCapacity = 93 ∧
      ⌈PREROLL_SEC * 1000 / (CHUNK_MS : ℚ)⌉ = 94 ∧
      prerollRingBufferCapacity ≠ ⌈PREROLL_SEC * 1000 / (CHUNK_MS : ℚ)⌉ := by
  refine ⟨by decide, by decide, by decide⟩

/-- C4 (amended): the pre-roll ring buffer's capacity in chunks equals the
`int` truncation (floor, for these positive values) of
`PREROLL_SEC × 1000 / CHUNK_MS`; with the defaults of 3000 ms pre-roll and
32 ms chunks this is 93 chunks, both for the module constant and for the
settings method. -/
theorem preroll_capacity_floor :
    prerollRingBufferCapacity = ⌊PREROLL_SEC * 1000 / (CHUNK_MS : ℚ)⌋ ∧
      prerollRingBufferCapacity = 93 ∧
      defaultVADDetectionSettings.preroll_chunks 32 = 93 := by
  refine ⟨by decide, by decide, by decide⟩

/-! ### Transcription retry strategy
Embedding of `src/stream_scribe/infrastructure/ml/transcription_strategy.py`
and the `WHISPER_PARAMS` table of `src/stream_scribe/domain/constants.py`
(which is the table the strategy indexes into). -/

/-- `WHISPER_INITIAL_PROMPT` (constants.py). -/
def WHISPER_INITIAL_PROMPT : String := "句読点を含む正確な日本語で書き起こします。"

/-- One entry of the `WHISPER_PARAMS` table: a Whisper parameter record. -/
structure WhisperParams where
  language : String
  temperature : ℚ
  condition_on_previous_text : Bool
  initial_prompt : Option String
  compression_ratio_threshold : ℚ
  logprob_threshold : ℚ
  no_speech_threshold : ℚ
deriving DecidableEq, Repr

/-- `WHISPER_PARAMS` (constants.py): the five-phase retry ladder. -/
def WHISPER_PARAMS : List WhisperParams :=
  [ { language := "ja", temperature := 0, condition_on_previous_text := false,
      initial_prompt := some WHISPER_INITIAL_PROMPT,
      compression_ratio_threshold := 24/10, logprob_threshold := -1,
      no_speech_threshold := 6/10 },
    { language := "ja", temperature := 0, condition_on_previous_text := false,
      initial_prompt := some WHISPER_INITIAL_PROMPT,
      compression_ratio_threshold := 2, logprob_threshold := -1,
      no_speech_threshold := 6/10 },
    { language := "ja", temperature := 0, condition_on_previous_text := false,
      initial_prompt := none,
      compression_ratio_threshold := 22/10, logprob_threshold := -1,
      no_speech_threshold := 6/10 },
    { language := "ja", temperature := 0, condition_on_previous_text := false,
      initial_prompt := none,
      compression_ratio_threshold := 18/10, logprob_threshold := -6/10,
      no_speech_threshold := 5/10 },
    { language := "ja", temperature := 0, condition_on_previous_text := false,
      initial_prompt := none,
      compression_ratio_threshold := 14/10, logprob_threshold := -4/10,
      no_speech_threshold := 4/10 } ]

/-- `MAX_TRANSCRIPTION_RETRIES = len(WHISPER_PARAMS)` (constants.py). -/
def MAX_TRANSCRIPTION_RETRIES : ℕ := WHISPER_PARAMS.length

/-- `TranscriptionAction` enum (transcription_strategy.py). -/
inductive TranscriptionAction where
  | ACCEPT
  | RETRY
  | DISCARD
deriving DecidableEq, Repr

/-- `StrategyResult` dataclass (transcription_strategy.py). -/
structure StrategyResult where
  action : TranscriptionAction
  next_params : Option WhisperParams := none
  reason : Option String := none
deriving DecidableEq, Repr

/-- Python truthiness of a string: non-empty. -/
def pyTruthy (s : String) : Bool := s != ""

/-- Python truthiness of a `str | None` value: `some` of a non-empty string. -/
def pyTruthyOpt : Option String → Bool
  | none => false
  | some s => s != ""

/-- Python f-string interpolation of a `str | None` value (`None` prints as
the four characters `None`). -/
def pyFStr : Option String → String
  | none => "None"
  | some s => s

/-- `TranscriptionRetryStrategy.evaluate_result`.  The strategy's only mutable
state is `current_attempt`; the function returns the `StrategyResult` and the
updated attempt counter. -/
def evaluate_result (current_attempt : ℕ) (text : String) (filter_reason : Option String) :
    StrategyResult × ℕ :=
  if pyTruthy text && !pyTruthyOpt filter_reason then
    ({ action := TranscriptionAction.ACCEPT }, current_attempt)
  else if !pyTruthy text && !pyTruthyOpt filter_reason then
    ({ action := TranscriptionAction.DISCARD,
       reason := some ("Empty transcription (likely silence)") }, current_attempt)
  else if current_attempt < MAX_TRANSCRIPTION_RETRIES - 1 then
    ({ action := TranscriptionAction.RETRY,
       next_params := WHISPER_PARAMS.get? (current_attempt + 1),
       reason := filter_reason }, current_attempt + 1)
  else
    ({ action := TranscriptionAction.DISCARD,
       reason := some ("Max retries reached. Last error: " ++ pyFStr filter_reason) },
      current_attempt)

/-- Counterexample for C3: with non-empty text and the filter reason being the
empty string (which is not `None`), `evaluate_result` still returns ACCEPT,
because Python tests the reason for truthiness rather than for `None`. -/
theorem retry_accept_iff_counterexample :
    (evaluate_result 0 ("a") (some (""))).1.action = TranscriptionAction.ACCEPT ∧
      (some ("") : Option String) ≠ none := by
  refine ⟨by decide, by decide⟩

/-- C3 (amended): `evaluate_result` returns ACCEPT iff the text is non-empty
and the filter reason is `None` or the empty string; on empty text with a
`None`-or-empty reason it returns DISCARD with the silence reason; and for a
fresh strategy fed (empty text, non-empty reason) five times, the first four
calls return RETRY carrying `WHISPER_PARAMS[1]`..`WHISPER_PARAMS[4]` in order
and the fifth returns DISCARD with a reason containing "Max retries reached". -/
theorem retry_strategy_evaluate_amended :
    (∀ (att : ℕ) (t : String) (r : Option String),
        (evaluate_result att t r).1.action = TranscriptionAction.ACCEPT ↔
          (t ≠ "" ∧ (r = none ∨ r = some ("")))) ∧
    (∀ (att : ℕ) (r : Option String), (r = none ∨ r = some ("")) →
        (evaluate_result att ("") r).1 =
          { action := TranscriptionAction.DISCARD,
            reason := some ("Empty transcription (likely silence)") }) ∧
    (∀ s : String, s ≠ "" →
        let e1 := evaluate_result 0 ("") (some s)
        let e2 := evaluate_result e1.2 ("") (some s)
        let e3 := evaluate_result e2.2 ("") (some s)
        let e4 := evaluate_result e3.2 ("") (some s)
        let e5 := evaluate_result e4.2 ("") (some s)
        e1.1 = { action := TranscriptionAction.RETRY,
                 next_params := WHISPER_PARAMS.get? 1, reason := some s } ∧
        e2.1 = { action := TranscriptionAction.RETRY,
                 next_params := WHISPER_PARAMS.get? 2, reason := some s } ∧
        e3.1 = { action := TranscriptionAction.RETRY,
                 next_params := WHISPER_PARAMS.get? 3, reason := some s } ∧
        e4.1 = { action := TranscriptionAction.RETRY,
                 next_params := WHISPER_PARAMS.get? 4, reason := some s } ∧
        e5.1 = { action := TranscriptionAction.DISCARD,
                 reason := some ("Max retries reached. Last error: " ++ s) }) := by
  refine ⟨?_, ?_, ?_⟩
  · intro att t r
    rcases r with _ | s
    · by_cases ht : t = "" <;>
        simp [evaluate_result, pyTruthy, pyTruthyOpt, ht]
    · by_cases hs : s = "" <;> by_cases ht : t = "" <;>
        simp [evaluate_result, pyTruthy, pyTruthyOpt, ht, hs] <;>
        split_ifs <;> simp
  · intro att r hr
    rcases hr with rfl | rfl <;> simp [evaluate_result, pyTruthy, pyTruthyOpt]
  · intro s hs
    simp [evaluate_result, pyTruthy, pyTruthyOpt, pyFStr, hs, MAX_TRANSCRIPTION_RETRIES,
      WHISPER_PARAMS]

/-- Witness for C3 (amended), at concrete inputs. -/
theorem retry_strategy_evaluate_amended_witness :
    (evaluate_result 0 ("a") none).1.action = TranscriptionAction.ACCEPT ∧
      (evaluate_result 2 ("") none).1 =
        { action := TranscriptionAction.DISCARD,
          reason := some ("Empty transcription (likely silence)") } ∧
      (evaluate_result 0 ("") (some ("x"))).1 =
        { action := TranscriptionAction.RETRY,
          next_params := WHISPER_PARAMS.get? 1, reason := some ("x") } :=
  ⟨(retry_strategy_evaluate_amended.1 0 ("a") none).mpr ⟨by decide, Or.inl rfl⟩,
    retry_strategy_evaluate_amended.2.1 2 none (Or.inl rfl),
    (retry_strategy_evaluate_amended.2.2 ("x") (by decide)).1⟩

/-! ### Realtime summarizer
Embedding of `RealtimeSummarizer._should_summarize`
(`src/stream_scribe/infrastructure/ai/summarizer.py`) and of the default
trigger values of `SummarySettings` (`src/stream_scribe/domain/settings.py`).
`now` models the value of `time.monotonic()` at the moment of the call, and
`pending` the texts of `pending_segments` (so `buffer_char_count` is the sum
of their lengths). -/

/-- Default of `SummarySettings.trigger_threshold` (settings.py): 600. -/
def defaultSummaryTriggerThreshold : ℤ := 600

/-- Default of `SummarySettings.silence_timeout_sec` (settings.py): 60.0. -/
def defaultSummarySilenceTimeoutSec : ℚ := 60

/-- `RealtimeSummarizer._should_summarize`. -/
def should_summarize (pending : List String) (last_segment_time : Option ℚ) (now : ℚ)
    (trigger_threshold : ℤ) (silence_timeout_sec : ℚ) : Bool :=
  let char_count : ℕ := (pending.map String.length).sum
  if (char_count : ℤ) ≥ trigger_threshold then
    true
  else
    match last_segment_time with
    | some t => decide (now - t ≥ silence_timeout_sec)
    | none => false

/-- The fire condition exactly as the claim words it: pending chars reach the
threshold, or pending chars are strictly positive and the elapsed time since
the last segment reaches the silence timeout. -/
def shouldSummarizeClaim (pending : List String) (last_segment_time : Option ℚ) (now : ℚ)
    (trigger_threshold : ℤ) (silence_timeout_sec : ℚ) : Prop :=
  (((pending.map String.length).sum : ℤ) ≥ trigger_threshold) ∨
    ((pending.map String.length).sum > 0 ∧
      ∃ t, last_segment_time = some t ∧ now - t ≥ silence_timeout_sec)

/-- Counterexample for C5: with no pending segments but a recorded
last-segment time 60 s in the past, the code fires even though the claimed
condition (which requires positive pending chars for the timeout branch) is
false. -/
theorem summarizer_fire_counterexample :
    should_summarize [] (some 0) 60 defaultSummaryTriggerThreshold
        defaultSummarySilenceTimeoutSec = true ∧
      ¬ shouldSummarizeClaim [] (some 0) 60 defaultSummaryTriggerThreshold
          defaultSummarySilenceTimeoutSec := by
  constructor
  · decide
  · rintro (h | ⟨h, -⟩)
    · simp [defaultSummaryTriggerThreshold] at h
    · simp at h

/-- C5 (amended): the fire decision is true iff the pending character count
reaches the trigger threshold (default 600), or a last-segment time is
recorded and the time since it reaches the silence timeout (default 60 s);
the timeout branch does not require any pending characters. -/
theorem summarizer_fire_iff (pending : List String) (last_segment_time : Option ℚ)
    (now : ℚ) (trigger_threshold : ℤ) (silence_timeout_sec : ℚ) :
    (should_summarize pending last_segment_time now trigger_threshold
        silence_timeout_sec = true ↔
      ((((pending.map String.length).sum : ℤ) ≥ trigger_threshold) ∨
        ∃ t, last_segment_time = some t ∧ now - t ≥ silence_timeout_sec)) ∧
      defaultSummaryTriggerThreshold = 600 ∧ defaultSummarySilenceTimeoutSec = 60 := by
  refine ⟨?_, rfl, rfl⟩
  rcases last_segment_time with _ | t <;>
    simp only [should_summarize] <;> split_ifs with h <;> simp_all [eq_comm]

/-- Witness for C5 (amended): one segment of 5 characters, last segment 40 s
ago, threshold 600, timeout 30 s — fires through the silence branch. -/
theorem summarizer_fire_iff_witness :
    should_summarize [("hello")] (some 10) 50 600 30 = true :=
  ((summarizer_fire_iff [("hello")] (some 10) 50 600 30).1).mpr
    (Or.inr ⟨10, rfl, by norm_num⟩)

/-! ### Summarizer shutdown (C6)
`RealtimeSummarizer.stop` (summarizer.py) builds the final prompt with
`FinalSummaryPromptStrategy`, then calls the LLM client with
`temperature=self.settings.final_temperature`,
`top_p=self.settings.final_top_p`, and on a non-empty response constructs
`SummaryGeneratedEvent(summary=final_summary, is_final=True)`.
We record, as string lists taken from the source, the attribute and keyword
names that `stop` uses against the fields that `SummarySettings`
(settings.py) and `SummaryGeneratedEvent` (events.py) actually declare. -/

/-- Field names of the `SummaryGeneratedEvent` dataclass in `events.py`. -/
def summaryGeneratedEventFields : List String := [("summary")]

/-- Field names declared by `SummarySettings` in `settings.py`. -/
def summarySettingsFields : List String :=
  [("enabled"), ("backend"), ("anthropic_api_key"), ("claude_model"),
   ("vllm_base_url"), ("vllm_model"), ("vllm_api_key"), ("max_tokens"),
   ("trigger_threshold"), ("silence_timeout_sec"), ("queue_get_timeout_sec"),
   ("shutdown_timeout_sec")]

/-- Attributes of `self.settings` read by `RealtimeSummarizer.stop` when a
session with segments is supplied (summarizer.py, final LLM call). -/
def summarizerStopSettingsReads : List String := [("final_temperature"), ("final_top_p")]

/-- Keyword arguments `RealtimeSummarizer.stop` passes to the
`SummaryGeneratedEvent` constructor (summarizer.py). -/
def summarizerStopEventKwargs : List String := [("summary"), ("is_final")]

/-- C6 evidence: `stop` reads `settings.final_temperature`, which
`SummarySettings` does not declare (an `AttributeError` inside the `try`
block, so the error handler emits a `MessagePostedEvent` instead), and it
passes `is_final` to `SummaryGeneratedEvent`, which has no such field (a
`TypeError` on construction).  Hence the final `SummaryGeneratedEvent` claimed
by the spec is never emitted by this code. -/
theorem summarizer_stop_references_missing_fields :
    (("final_temperature") ∈ summarizerStopSettingsReads ∧
        ("final_temperature") ∉ summarySettingsFields) ∧
      (("is_final") ∈ summarizerStopEventKwargs ∧
        ("is_final") ∉ summaryGeneratedEventFields) := by
  refine ⟨⟨by decide, by decide⟩, ⟨by decide, by decide⟩⟩

/-! ### Hallucination filter
Embedding of `HallucinationFilter` (`src/stream_scribe/infrastructure/ml/filters.py`)
together with the constant tables it uses from `constants.py`.  Python string
scalars: `len` counts code points, which matches `List Char` length; `strip`
removes Unicode whitespace on both ends; `needle in haystack` is substring
containment; `text.count(pattern)` counts non-overlapping occurrences from the
left. -/

/-- Unicode whitespace as recognised by Python's `str.strip` / `re` `\s`
(space, the ASCII control whitespace, NEL, NBSP, and the Unicode space
separators). -/
def pyIsSpace (c : Char) : Bool :=
  let n := c.toNat
  decide (n = 32 ∨ (9 ≤ n ∧ n ≤ 13) ∨ (28 ≤ n ∧ n ≤ 31) ∨ n = 133 ∨ n = 160 ∨
    n = 5760 ∨ (8192 ≤ n ∧ n ≤ 8202) ∨ n = 8232 ∨ n = 8233 ∨ n = 8239 ∨
    n = 8287 ∨ n = 12288)

/-- Whitespace stripping on a character list (both ends). -/
def pyStripChars (l : List Char) : List Char :=
  ((l.dropWhile pyIsSpace).reverse.dropWhile pyIsSpace).reverse

/-- Python `str.strip()`. -/
def pyStrip (s : String) : String := String.mk (pyStripChars s.data)

/-- Substring test on character lists. -/
def pyContainsChars (needle : List Char) : List Char → Bool
  | [] => needle.isEmpty
  | c :: rest => needle.isPrefixOf (c :: rest) || pyContainsChars needle rest

/-- Python `needle in haystack` on strings. -/
def pyInStr (needle haystack : String) : Bool :=
  pyContainsChars needle.data haystack.data

/-- Helper for `pyCount`: scans the text, counting non-overlapping occurrences
of `p`; `skip` is the number of positions still covered by the last match. -/
def pyCountChars (p : List Char) : ℕ → List Char → ℕ
  | _, [] => 0
  | k + 1, _ :: rest => pyCountChars p k rest
  | 0, c :: rest =>
    if p.isPrefixOf (c :: rest) then 1 + pyCountChars p (p.length - 1) rest
    else pyCountChars p 0 rest

/-- Python `text.count(pattern)`: non-overlapping occurrences (an empty
pattern counts `len(text) + 1` times). -/
def pyCount (text pattern : String) : ℕ :=
  if pattern.data.isEmpty then text.data.length + 1
  else pyCountChars pattern.data 0 text.data

/-- Round a rational to an integer, ties to even (Python `round`/formatting). -/
def roundHalfEven (q : ℚ) : ℤ :=
  let fl := ⌊q⌋
  let frac := q - fl
  if frac > 1/2 then fl + 1
  else if frac < 1/2 then fl
  else if fl % 2 = 0 then fl else fl + 1

/-- Left-pads a numeral string with zeros to the given width. -/
def padLeftZeros (width : ℕ) (s : String) : String :=
  String.mk (List.replicate (width - s.data.length) '0') ++ s

/-- Python fixed-point formatting `format(x, ".Nf")`, applied to the rational
stand-in for the float (round half to even). -/
def pyFormatFixed (decimals : ℕ) (q : ℚ) : String :=
  let scale : ℕ := 10 ^ decimals
  let m : ℕ := (roundHalfEven (|q| * scale)).toNat
  (if q < 0 then "-" else "") ++ toString (m / scale) ++ "." ++
    padLeftZeros decimals (toString (m % scale))

/-- `BANNED_PHRASES` (constants.py). -/
def BANNED_PHRASES : List String :=
  [WHISPER_INITIAL_PROMPT, "書き起こします", "ご視聴ありがとうございました",
   "チャンネル登録", "高評価", "Thank you for watching", "次回予告",
   "MBC News", "Subtitles by", "字幕", "ブーブー", "ブーバー", "♪"]

/-- `CONTEXTLESS_GREETING_PHRASES` (constants.py), in source order. -/
def CONTEXTLESS_GREETING_PHRASES : List String :=
  ["おやすみなさい", "おやすみ", "おはようございます", "おはよう", "こんにちは",
   "こんばんは", "さようなら", "ありがとうございました", "ありがとうございます",
   "ありがとう", "お疲れ様でした", "お疲れ様です", "お疲れさまでした",
   "お疲れさまです", "いただきます", "ごちそうさまでした", "ごちそうさま",
   "行ってきます", "行ってらっしゃい", "ただいま", "おかえりなさい", "おかえり"]

namespace HallucinationFilter

/-- `MIN_CHAR_REPETITION` class constant. -/
def MIN_CHAR_REPETITION : ℕ := 10

/-- `MIN_SHORT_PATTERN_REPETITION` class constant. -/
def MIN_SHORT_PATTERN_REPETITION : ℕ := 5

/-- `MIN_LONG_PATTERN_REPETITION` class constant. -/
def MIN_LONG_PATTERN_REPETITION : ℕ := 3

/-- `MIN_TOKEN_REPETITION` class constant. -/
def MIN_TOKEN_REPETITION : ℕ := 5

/-- `SHORT_PATTERN_MAX_LENGTH` class constant. -/
def SHORT_PATTERN_MAX_LENGTH : ℕ := 10

/-- `LONG_PATTERN_MIN_LENGTH` class constant. -/
def LONG_PATTERN_MIN_LENGTH : ℕ := 11

/-- `LONG_PATTERN_MAX_LENGTH` class constant. -/
def LONG_PATTERN_MAX_LENGTH : ℕ := 50

/-- `PATTERN_SEARCH_START_POSITIONS` class constant. -/
def PATTERN_SEARCH_START_POSITIONS : ℕ := 50

/-- `REPETITION_RATIO_THRESHOLD = 0.5` class constant. -/
def REPETITION_RATIO_THRESHOLD : ℚ := 1/2

/-- `EXTREME_LOW_LOGPROB_THRESHOLD = -1.7` class constant. -/
def EXTREME_LOW_LOGPROB_THRESHOLD : ℚ := -17/10

/-- `GREETING_LOW_LOGPROB_THRESHOLD = -0.8` (constants.py). -/
def GREETING_LOW_LOGPROB_THRESHOLD : ℚ := -8/10

/-- `GREETING_LONG_AUDIO_THRESHOLD = 5.0` (constants.py). -/
def GREETING_LONG_AUDIO_THRESHOLD : ℚ := 5

/-- `GREETING_SHORT_TEXT_THRESHOLD = 15` (constants.py). -/
def GREETING_SHORT_TEXT_THRESHOLD : ℕ := 15

/-- The character class of `_JAPANESE_PUNCTUATION_PATTERN = [。、！？\s]+`. -/
def isJapanesePunct (c : Char) : Bool :=
  c == '。' || c == '、' || c == '！' || c == '？' || pyIsSpace c

/-- `HallucinationFilter._check_banned_phrases`. -/
def check_banned_phrases (banned_phrases : List String) (text : String) : Option String :=
  banned_phrases.findSome? fun phrase =>
    if pyInStr phrase text then some ("Banned phrase: '" ++ phrase ++ "'") else none

/-- Loop body of `_check_character_repetition`: walks `text[1:]` carrying the
previous character and the current consecutive count. -/
def charRepAux (prev : Char) (consecutive : ℕ) : List Char → Option String
  | [] => none
  | c :: rest =>
    if c == prev then
      if consecutive + 1 ≥ MIN_CHAR_REPETITION then
        some ("Character repetition: '" ++ String.mk [c] ++ "' x" ++
          toString (consecutive + 1) ++ "+")
      else
        charRepAux prev (consecutive + 1) rest
    else
      charRepAux c 1 rest

/-- `HallucinationFilter._check_character_repetition`. -/
def check_character_repetition (text : String) : Option String :=
  if text.data.length < MIN_CHAR_REPETITION then none
  else
    match text.data with
    | [] => none
    | c :: rest => charRepAux c 1 rest

/-- `HallucinationFilter._check_short_pattern_repetition`.  The two Python
`for` loops (pattern length 2 up to `min(10, len // 3)`, then start positions)
become ordered `findSome?` scans; the first early `return` wins. -/
def check_short_pattern_repetition (text : String) : Option String :=
  let tl := text.data
  let text_len := tl.length
  if text_len < 20 then none
  else
    (List.range (min (SHORT_PATTERN_MAX_LENGTH + 1) (text_len / 3 + 1) - 2)).findSome?
      fun i =>
        let pattern_len : ℕ := i + 2
        let max_start : ℤ :=
          min (PATTERN_SEARCH_START_POSITIONS : ℤ)
            ((text_len : ℤ) - (pattern_len : ℤ) * 3 + 1)
        (List.range max_start.toNat).findSome? fun start =>
          let pattern := String.mk ((tl.drop start).take pattern_len)
          if pyTruthy (pyStrip pattern) then
            let count := pyCount text pattern
            if count ≥ MIN_SHORT_PATTERN_REPETITION then
              if ((pattern_len * count : ℕ) : ℚ) ≥ (text_len : ℚ) * REPETITION_RATIO_THRESHOLD then
                some ("Pattern repetition: '" ++ String.mk (pattern.data.take 30) ++
                  "...' x" ++ toString count)
              else none
            else none
          else none

/-- `HallucinationFilter._check_long_pattern_repetition`: pattern lengths 11,
16, 21, … up to `min(50, len // 3)`, each tried only at the start of the text. -/
def check_long_pattern_repetition (text : String) : Option String :=
  let tl := text.data
  let text_len := tl.length
  if text_len < 60 then none
  else
    let max_pattern_len := min LONG_PATTERN_MAX_LENGTH (text_len / 3)
    (List.range (((max_pattern_len + 1) - LONG_PATTERN_MIN_LENGTH + 4) / 5)).findSome?
      fun i =>
        let pattern_len := LONG_PATTERN_MIN_LENGTH + 5 * i
        let pattern := String.mk (tl.take pattern_len)
        if pyTruthy (pyStrip pattern) then
          let count := pyCount text pattern
          if count ≥ MIN_LONG_PATTERN_REPETITION then
            if ((pattern_len * count : ℕ) : ℚ) ≥ (text_len : ℚ) * REPETITION_RATIO_THRESHOLD then
              some ("Long phrase repetition: '" ++ String.mk (pattern.data.take 30) ++
                "...' x" ++ toString count)
            else none
          else none
        else none

/-- `re.split` on a maximal run of characters of a class: accumulates the
current token (reversed) and a flag telling whether a separator run is being
skipped; empty tokens appear exactly at a leading or trailing run. -/
def splitSepRuns (sep : Char → Bool) : Bool → List Char → List Char → List (List Char)
  | false, cur, [] => [cur.reverse]
  | true, _, [] => [[]]
  | false, cur, c :: rest =>
    if sep c then cur.reverse :: splitSepRuns sep true [] rest
    else splitSepRuns sep false (c :: cur) rest
  | true, _, c :: rest =>
    if sep c then splitSepRuns sep true [] rest
    else splitSepRuns sep false [c] rest

/-- `HallucinationFilter._check_token_repetition`. -/
def check_token_repetition (text : String) : Option String :=
  let tokens := (splitSepRuns isJapanesePunct false [] text.data).map String.mk
  let tokens := tokens.filter fun t => pyTruthy (pyStrip t)
  if tokens.length ≥ MIN_TOKEN_REPETITION then
    match tokens.getLast? with
    | some last_token =>
      if pyTruthy last_token &&
          ((tokens.reverse.take MIN_TOKEN_REPETITION).all fun t => t == last_token) then
        some ("Token repetition at end: '" ++ last_token ++ "' x" ++
          toString MIN_TOKEN_REPETITION ++ "+")
      else none
    | none => none
  else none

/-- `HallucinationFilter._check_contextless_greeting`. -/
def check_contextless_greeting (text : String) (avg_logprob audio_duration : Option ℚ) :
    Option String :=
  let normalized := String.mk (text.data.filter fun c => !isJapanesePunct c)
  match CONTEXTLESS_GREETING_PHRASES.find? (fun phrase => pyInStr phrase normalized) with
  | none => none
  | some matched_greeting =>
    if normalized.data.length > GREETING_SHORT_TEXT_THRESHOLD then none
    else
      let is_low_confidence :=
        match avg_logprob with
        | some lp => decide (lp < GREETING_LOW_LOGPROB_THRESHOLD)
        | none => false
      let is_short_in_long_audio :=
        match audio_duration with
        | some d =>
          decide (d ≥ GREETING_LONG_AUDIO_THRESHOLD) &&
            decide (normalized.data.length ≤ GREETING_SHORT_TEXT_THRESHOLD)
        | none => false
      if is_low_confidence then
        some ("Contextless greeting with low confidence: '" ++ matched_greeting ++
          "' (avg_logprob=" ++ pyFormatFixed 2 (avg_logprob.getD 0) ++ ")")
      else if is_short_in_long_audio then
        some ("Contextless greeting in long audio: '" ++ matched_greeting ++
          "' (audio=" ++ pyFormatFixed 1 (audio_duration.getD 0) ++ "s, text=" ++
          toString normalized.data.length ++ " chars)")
      else none

/-- `HallucinationFilter._check_extreme_low_confidence`. -/
def check_extreme_low_confidence (avg_logprob : Option ℚ) : Option String :=
  match avg_logprob with
  | some lp =>
    if lp < EXTREME_LOW_LOGPROB_THRESHOLD then
      some ("Extreme low confidence (avg_logprob=" ++ pyFormatFixed 2 lp ++ ")")
    else none
  | none => none

/-- `HallucinationFilter.evaluate_transcription`: the early accept on
empty/whitespace-only text, then the seven detectors in source order, each
`if reason := ...` testing the result for truthiness. -/
def evaluate_transcription (banned_phrases : List String) (text : String)
    (avg_logprob audio_duration : Option ℚ) : Option String :=
  if !pyTruthy text || !pyTruthy (pyStrip text) then none
  else
    let r1 := check_banned_phrases banned_phrases text
    if pyTruthyOpt r1 then r1 else
    let r2 := check_character_repetition text
    if pyTruthyOpt r2 then r2 else
    let r3 := check_short_pattern_repetition text
    if pyTruthyOpt r3 then r3 else
    let r4 := check_long_pattern_repetition text
    if pyTruthyOpt r4 then r4 else
    let r5 := check_token_repetition text
    if pyTruthyOpt r5 then r5 else
    let r6 := check_contextless_greeting text avg_logprob audio_duration
    if pyTruthyOpt r6 then r6 else
    let r7 := check_extreme_low_confidence avg_logprob
    if pyTruthyOpt r7 then r7 else
    none

/-- The seven detector results, in the order the source applies them. -/
def detectorOutputs (banned_phrases : List String) (text : String)
    (avg_logprob audio_duration : Option ℚ) : List (Option String) :=
  [check_banned_phrases banned_phrases text,
   check_character_repetition text,
   check_short_pattern_repetition text,
   check_long_pattern_repetition text,
   check_token_repetition text,
   check_contextless_greeting text avg_logprob audio_duration,
   check_extreme_low_confidence avg_logprob]

end HallucinationFilter

/-- A string append with a non-empty left part is non-empty. -/
theorem str_append_ne_empty_left {a : String} (ha : a ≠ "") (b : String) : a ++ b ≠ "" := by
  intro h
  have hlen : a.length + b.length = 0 := by
    simpa [String.length_append] using congrArg String.length h
  apply ha
  have ha0 : a.length = 0 := Nat.eq_zero_of_add_eq_zero_right hlen
  cases a with
  | mk d =>
    cases d with
    | nil => rfl
    | cons c cs => simp [String.length] at ha0

namespace HallucinationFilter

/-- Every reason produced by the banned-phrase detector is non-empty. -/
theorem check_banned_phrases_ne_empty (banned_phrases : List String) (text : String) :
    ∀ s, check_banned_phrases banned_phrases text = some s → s ≠ "" := by
  intro s h
  obtain ⟨p, -, hp⟩ := List.exists_of_findSome?_eq_some h
  simp only [Option.ite_none_right_eq_some, Option.some.injEq] at hp
  obtain ⟨-, hp⟩ := hp
  subst hp
  repeat apply str_append_ne_empty_left
  decide

/-- Every reason produced by the character-repetition scan is non-empty. -/
theorem charRepAux_ne_empty (l : List Char) :
    ∀ prev k s, charRepAux prev k l = some s → s ≠ "" := by
  induction l with
  | nil => intro prev k s h; simp [charRepAux] at h
  | cons c rest ih =>
    intro prev k s h
    simp only [charRepAux] at h
    split_ifs at h with h1 h2
    · simp only [Option.some.injEq] at h
      subst h
      repeat apply str_append_ne_empty_left
      decide
    · exact ih prev (k + 1) s h
    · exact ih c 1 s h

/-- Every reason produced by `_check_character_repetition` is non-empty. -/
theorem check_character_repetition_ne_empty (text : String) :
    ∀ s, check_character_repetition text = some s → s ≠ "" := by
  intro s h
  simp only [check_character_repetition] at h
  split at h
  · simp at h
  · split at h
    · simp at h
    · exact charRepAux_ne_empty _ _ _ s h

/-- Every reason produced by `_check_short_pattern_repetition` is non-empty. -/
theorem check_short_pattern_repetition_ne_empty (text : String) :
    ∀ s, check_short_pattern_repetition text = some s → s ≠ "" := by
  intro s h
  simp only [check_short_pattern_repetition] at h
  split at h
  · simp at h
  · obtain ⟨i, -, hi⟩ := List.exists_of_findSome?_eq_some h
    obtain ⟨st, -, hst⟩ := List.exists_of_findSome?_eq_some hi
    simp only [Option.ite_none_right_eq_some, Option.some.injEq] at hst
    obtain ⟨-, -, -, hst⟩ := hst
    subst hst
    repeat apply str_append_ne_empty_left
    decide

/-- Every reason produced by `_check_long_pattern_repetition` is non-empty. -/
theorem check_long_pattern_repetition_ne_empty (text : String) :
    ∀ s, check_long_pattern_repetition text = some s → s ≠ "" := by
  intro s h
  simp only [check_long_pattern_repetition] at h
  split at h
  · simp at h
  · obtain ⟨i, -, hi⟩ := List.exists_of_findSome?_eq_some h
    simp only [Option.ite_none_right_eq_some, Option.some.injEq] at hi
    obtain ⟨-, -, -, hi⟩ := hi
    subst hi
    repeat apply str_append_ne_empty_left
    decide

/-- Every reason produced by `_check_token_repetition` is non-empty. -/
theorem check_token_repetition_ne_empty (text : String) :
    ∀ s, check_token_repetition text = some s → s ≠ "" := by
  intro s h
  simp only [check_token_repetition] at h
  split at h
  · split at h
    · simp only [Option.ite_none_right_eq_some, Option.some.injEq] at h
      obtain ⟨-, h⟩ := h
      subst h
      repeat apply str_append_ne_empty_left
      decide
    · simp at h
  · simp at h

/-- Every reason produced by `_check_contextless_greeting` is non-empty. -/
theorem check_contextless_greeting_ne_empty (text : String)
    (avg_logprob audio_duration : Option ℚ) :
    ∀ s, check_contextless_greeting text avg_logprob audio_duration = some s → s ≠ "" := by
  intro s h
  simp only [check_contextless_greeting] at h
  split at h
  · simp at h
  · split_ifs at h with h1 h2 h3
    · simp only [Option.some.injEq] at h
      subst h
      repeat apply str_append_ne_empty_left
      decide
    · simp only [Option.some.injEq] at h
      subst h
      repeat apply str_append_ne_empty_left
      decide

/-- Every reason produced by `_check_extreme_low_confidence` is non-empty. -/
theorem check_extreme_low_confidence_ne_empty (avg_logprob : Option ℚ) :
    ∀ s, check_extreme_low_confidence avg_logprob = some s → s ≠ "" := by
  intro s h
  simp only [check_extreme_low_confidence] at h
  split at h
  · simp only [Option.ite_none_right_eq_some, Option.some.injEq] at h
    obtain ⟨-, h⟩ := h
    subst h
    repeat apply str_append_ne_empty_left
    decide
  · simp at h

end HallucinationFilter

namespace HallucinationFilter

/-- C7: if the stripped text is empty the filter accepts (returns `none`)
whatever `avg_logprob` (even below the −1.7 extreme-low-confidence threshold)
and `audio_duration` are; otherwise the result is the first `some` among the
seven detectors applied in the fixed source order (banned phrase, character
repetition, short-pattern repetition, long-pattern repetition, token
repetition, contextless greeting, extreme low confidence). -/
theorem evaluate_transcription_order (banned_phrases : List String) (text : String)
    (avg_logprob audio_duration : Option ℚ) :
    (pyStrip text = "" →
      evaluate_transcription banned_phrases text avg_logprob audio_duration = none) ∧
    (pyStrip text ≠ "" →
      evaluate_transcription banned_phrases text avg_logprob audio_duration =
        (detectorOutputs banned_phrases text avg_logprob audio_duration).findSome? id) := by
  constructor
  · intro h
    have hps : pyTruthy (pyStrip text) = false := by simp [pyTruthy, h]
    simp [evaluate_transcription, hps]
  · intro h
    have htext : text ≠ "" := by
      intro he
      apply h
      rw [he]
      decide
    have h1 : pyTruthy text = true := by simp [pyTruthy, htext]
    have h2 : pyTruthy (pyStrip text) = true := by simp [pyTruthy, h]
    simp only [evaluate_transcription, detectorOutputs, h1, h2, Bool.not_true,
      Bool.or_self, Bool.false_or, if_false]
    cases hb : check_banned_phrases banned_phrases text with
    | some s =>
      have hs := check_banned_phrases_ne_empty banned_phrases text s hb
      simp [hb, pyTruthyOpt, hs, List.findSome?]
    | none =>
    cases hc : check_character_repetition text with
    | some s =>
      have hs := check_character_repetition_ne_empty text s hc
      simp [hb, hc, pyTruthyOpt, hs, List.findSome?]
    | none =>
    cases hd : check_short_pattern_repetition text with
    | some s =>
      have hs := check_short_pattern_repetition_ne_empty text s hd
      simp [hb, hc, hd, pyTruthyOpt, hs, List.findSome?]
    | none =>
    cases he : check_long_pattern_repetition text with
    | some s =>
      have hs := check_long_pattern_repetition_ne_empty text s he
      simp [hb, hc, hd, he, pyTruthyOpt, hs, List.findSome?]
    | none =>
    cases hf : check_token_repetition text with
    | some s =>
      have hs := check_token_repetition_ne_empty text s hf
      simp [hb, hc, hd, he, hf, pyTruthyOpt, hs, List.findSome?]
    | none =>
    cases hg : check_contextless_greeting text avg_logprob audio_duration with
    | some s =>
      have hs := check_contextless_greeting_ne_empty text avg_logprob audio_duration s hg
      simp [hb, hc, hd, he, hf, hg, pyTruthyOpt, hs, List.findSome?]
    | none =>
    cases hh : check_extreme_low_confidence avg_logprob with
    | some s =>
      have hs := check_extreme_low_confidence_ne_empty avg_logprob s hh
      simp [hb, hc, hd, he, hf, hg, hh, pyTruthyOpt, hs, List.findSome?]
    | none =>
      simp [hb, hc, hd, he, hf, hg, hh, pyTruthyOpt, List.findSome?]

/-- Witness for C7: a whitespace-only text is accepted even with
`avg_logprob = −2 < −1.7`, and a concrete non-empty text takes the
first-detector-hit value. -/
theorem evaluate_transcription_order_witness :
    evaluate_transcription BANNED_PHRASES (" ") (some (-2)) none = none ∧
      evaluate_transcription BANNED_PHRASES ("こんにちは") (some (-1)) none =
        (detectorOutputs BANNED_PHRASES ("こんにちは") (some (-1)) none).findSome? id :=
  ⟨(evaluate_transcription_order BANNED_PHRASES (" ") (some (-2)) none).1 (by decide),
    (evaluate_transcription_order BANNED_PHRASES ("こんにちは") (some (-1)) none).2
      (by decide)⟩

end HallucinationFilter

/-! ### vLLM response post-processing
Embedding of `VLLMClient._extract_markdown_block`
(`src/stream_scribe/infrastructure/ai/llm_client.py`).  The two compiled
regexes are modelled by their matching semantics:
`<think>.*?</think>` (DOTALL, non-greedy) matches from each `<think>` to the
first following `</think>`, scanning left to right over non-overlapping
matches; ` ```markdown\s*\n(.*?)\n``` ` matches greedily backtracking `\s*`
(so the capture starts after the last newline of the whitespace run that
still leaves a closing `\n``` ` to find) with a non-greedy capture ending at
the first following `\n``` `. -/

/-- Index of the first occurrence of `needle` starting at offset `i`. -/
def findSubIdxAux (needle : List Char) : ℕ → List Char → Option ℕ
  | i, [] => if needle.isEmpty then some i else none
  | i, c :: rest =>
    if needle.isPrefixOf (c :: rest) then some i else findSubIdxAux needle (i + 1) rest

/-- Index of the first occurrence of `needle` in `l`, if any. -/
def findSubIdx (needle l : List Char) : Option ℕ := findSubIdxAux needle 0 l

/-- One-pass removal of `<think>…</think>` spans (`_THINK_TAG_PATTERN.sub("", ·)`):
each match runs from a `<think>` to the first `</think>` after it; scanning
resumes after the match.  `fuel` bounds the recursion (each step consumes at
least 15 characters). -/
def removeThinkAux : ℕ → List Char → List Char
  | 0, l => l
  | fuel + 1, l =>
    match findSubIdx (("<think>").data) l with
    | none => l
    | some i =>
      match findSubIdx (("</think>").data) (l.drop (i + 7)) with
      | none => l
      | some j => l.take i ++ removeThinkAux fuel ((l.drop (i + 7)).drop (j + 8))

/-- `_THINK_TAG_PATTERN.sub("", text)`. -/
def removeThink (l : List Char) : List Char := removeThinkAux (l.length + 1) l

/-- Candidate positions of the `\n` consumed by `\s*\n` inside the whitespace
run following ` ```markdown `, in the greedy (longest-`\s*`-first) order the
regex engine tries them. -/
def mdNewlineStarts (run : List Char) : List ℕ :=
  ((List.range run.length).filter fun k => run.getD k ' ' == '\n').reverse

/-- Tries the candidate `\n` positions in order; on the first one from which a
closing `\n``` ` can still be found, returns the capture and the remainder of
the text after the match. -/
def mdTryStart (after : List Char) : List ℕ → Option (List Char × List Char)
  | [] => none
  | k :: ks =>
    match findSubIdx (("\n```").data) (after.drop (k + 1)) with
    | some m => some ((after.drop (k + 1)).take m, (after.drop (k + 1)).drop (m + 4))
    | none => mdTryStart after ks

/-- All captures of `_MARKDOWN_BLOCK_PATTERN.findall`, left to right over
non-overlapping matches; on a failed match attempt the scan resumes one
character after the candidate ` ```markdown `. -/
def mdFindAux : ℕ → List Char → List (List Char)
  | 0, _ => []
  | fuel + 1, l =>
    match findSubIdx (("```markdown").data) l with
    | none => []
    | some i =>
      let after := l.drop (i + 11)
      let run := after.takeWhile pyIsSpace
      match mdTryStart after (mdNewlineStarts run) with
      | some (content, rest) => content :: mdFindAux fuel rest
      | none => mdFindAux fuel (l.drop (i + 1))

/-- `_MARKDOWN_BLOCK_PATTERN.findall(text)`. -/
def mdFindAll (l : List Char) : List (List Char) := mdFindAux (l.length + 1) l

/-- `VLLMClient._extract_markdown_block`. -/
def extract_markdown_block (text : String) : String :=
  let text_without_think := removeThink text.data
  let ms := mdFindAll text_without_think
  match ms.getLast? with
  | some m => pyStrip (String.mk m)
  | none => pyStrip (String.mk text_without_think)

/-- C9: the extractor removes the `<think>…</think>` spans and returns the
stripped content of the last ` ```markdown ` fenced block when one exists,
otherwise the stripped cleaned text; on the spec's example input it returns
`# H`. -/
theorem extract_markdown_block_spec :
    extract_markdown_block ("<think>x</think>\n```markdown\n# H\n```") = ("# H") ∧
      (∀ (t : String) (m : List Char),
        (mdFindAll (removeThink t.data)).getLast? = some m →
          extract_markdown_block t = pyStrip (String.mk m)) ∧
      (∀ t : String,
        (mdFindAll (removeThink t.data)).getLast? = none →
          extract_markdown_block t = pyStrip (String.mk (removeThink t.data))) := by
  refine ⟨by decide, ?_, ?_⟩
  · intro t m hm
    simp [extract_markdown_block, hm]
  · intro t hm
    simp [extract_markdown_block, hm]

/-- Witness for C9: the example input, the last-block branch on that input,
and the no-block branch on a plain text. -/
theorem extract_markdown_block_spec_witness :
    extract_markdown_block ("<think>x</think>\n```markdown\n# H\n```") = ("# H") ∧
      extract_markdown_block ("<think>x</think>\n```markdown\n# H\n```") =
        pyStrip (String.mk (("# H").data)) ∧
      extract_markdown_block ("abc") = pyStrip (String.mk (removeThink (("abc").data))) :=
  ⟨extract_markdown_block_spec.1,
    extract_markdown_block_spec.2.1 ("<think>x</think>\n```markdown\n# H\n```")
      (("# H").data) (by decide),
    extract_markdown_block_spec.2.2 ("abc") (by decide)⟩
